import Mathlib

/-
  Shallow embedding of the outreach-campaign core of the repository:
  the campaign status tracker (src/src/club_status_manager.py), the
  research cache (src/src/club_research_manager.py) and the cost
  tracking that the research manager embeds, together with theorems
  settling the frozen claims about them.

  Timestamps are modelled as natural numbers (seconds); the Python
  datetime.now() calls inside one operation are modelled by a single
  explicit `now` argument.  CSV stores are modelled as Lean lists of
  row structures; pandas row lookup by boolean mask followed by
  iloc[0] / index[0] is modelled as "first list element satisfying
  the predicate".
-/

namespace PhotoClub

/-- Update the first element of a list satisfying `p` with `f`,
    leaving everything else in place (models `df.loc[club_idx[0], ...] = ...`). -/
def updateFirst (p : α → Bool) (f : α → α) : List α → List α
  | [] => []
  | a :: as => if p a then f a :: as else a :: updateFirst p f as

/- ===== Campaign status tracker (src/src/club_status_manager.py) ===== -/

/-- ResponseStatus.EMAIL_SENT.value -/
def emailSentStatus : String := "email_sent"

/-- ResponseStatus.POSITIVE_RESPONSE.value -/
def positiveResponse : String := "positive_response"

/-- ResponseStatus.NEGATIVE_RESPONSE.value -/
def negativeResponse : String := "negative_response"

/-- EmailType enum: the three campaign stages that have columns in the
    status-tracking CSV. -/
inductive EmailType where
  | introduction
  | checkup
  | acceptance
deriving DecidableEq, Repr

/-- The string value of an EmailType (its CSV column family name). -/
def EmailType.str : EmailType → String
  | .introduction => "introduction"
  | .checkup => "checkup"
  | .acceptance => "acceptance"

/-- email_type.title() as used in the sent-notification message. -/
def EmailType.title : EmailType → String
  | .introduction => "Introduction"
  | .checkup => "Checkup"
  | .acceptance => "Acceptance"

/-- The per-stage column group of the status CSV:
    {stage}_sent_date, {stage}_status, {stage}_response_date,
    {stage}_response_type, {stage}_notes.  Missing (NaN) cells are `none`. -/
structure StageTrack where
  sent_date : Option Nat
  status : Option String
  response_date : Option Nat
  response_type : Option String
  notes : Option String
deriving DecidableEq, Repr

/-- A stage track with every cell empty (a freshly created row). -/
def StageTrack.empty : StageTrack := ⟨none, none, none, none, none⟩

/-- One row of data/club_status_tracking.csv. -/
structure StatusRecord where
  club_name : String
  country : Option String
  website : Option String
  introduction : StageTrack
  checkup : StageTrack
  acceptance : StageTrack
  current_stage : Option String
  priority_level : Option String
  last_activity_date : Option Nat
  created_at : Option Nat
  updated_at : Option Nat
deriving DecidableEq, Repr

/-- Read the column group of a stage. -/
def StatusRecord.getStage (r : StatusRecord) : EmailType → StageTrack
  | .introduction => r.introduction
  | .checkup => r.checkup
  | .acceptance => r.acceptance

/-- Write the column group of a stage. -/
def StatusRecord.setStage (r : StatusRecord) : EmailType → StageTrack → StatusRecord
  | .introduction, t => { r with introduction := t }
  | .checkup, t => { r with checkup := t }
  | .acceptance, t => { r with acceptance := t }

/-- One row of data/notifications.csv. -/
structure Notification where
  notification_id : String
  club_name : String
  email_type : String
  notification_type : String
  message : String
  is_read : Bool
  created_at : Nat
  read_at : Option Nat
deriving DecidableEq, Repr

/-- The two CSV files owned by ClubStatusManager. -/
structure StatusState where
  status : List StatusRecord
  notifications : List Notification
deriving DecidableEq, Repr

/-- Python str.replace for a single character (used for
    response_type.replace with an underscore and a space). -/
def pyReplaceChar (s : String) (a b : Char) : String :=
  String.mk (s.data.map (fun c => if c = a then b else c))

/-- ClubStatusManager._create_notification: append one unread row to the
    notifications CSV. -/
def create_notification (ns : List Notification) (club_name : String)
    (email_type notification_type message : String) (now : Nat) : List Notification :=
  ns ++ [{ notification_id :=
             club_name ++ "_" ++ email_type ++ "_" ++ notification_type ++ "_" ++ toString now,
           club_name := club_name,
           email_type := email_type,
           notification_type := notification_type,
           message := message,
           is_read := false,
           created_at := now,
           read_at := none }]

/-- The fresh row created by update_email_sent when the club has no row yet:
    only club_name, current_stage, priority_level and the three timestamps
    are filled in; every other cell is NaN. -/
def newStatusRecord (club_name : String) (email_type : EmailType) (now : Nat) : StatusRecord :=
  { club_name := club_name,
    country := none, website := none,
    introduction := StageTrack.empty,
    checkup := StageTrack.empty,
    acceptance := StageTrack.empty,
    current_stage := some email_type.str,
    priority_level := some "medium",
    last_activity_date := some now,
    created_at := some now,
    updated_at := some now }

/-- The per-row effect of update_email_sent on the (first) matching row. -/
def applyEmailSent (email_type : EmailType) (notes : String) (now : Nat)
    (r : StatusRecord) : StatusRecord :=
  let t := r.getStage email_type
  let r := r.setStage email_type
    { t with sent_date := some now, status := some emailSentStatus, notes := some notes }
  { r with current_stage := some email_type.str,
           last_activity_date := some now,
           updated_at := some now }

/-- ClubStatusManager.update_email_sent: find or create the club's row, stamp
    the sent date and status for the stage, set current_stage to the stage,
    and emit an email_sent notification.  Returns the success flag and the
    new state. -/
def update_email_sent (s : StatusState) (club_name : String) (email_type : EmailType)
    (notes : String) (now : Nat) : Bool × StatusState :=
  let base :=
    if s.status.any (fun r => r.club_name == club_name) then s.status
    else s.status ++ [newStatusRecord club_name email_type now]
  let status' := updateFirst (fun r => r.club_name == club_name)
    (applyEmailSent email_type notes now) base
  (true,
   { status := status',
     notifications := create_notification s.notifications club_name email_type.str
       "email_sent" (email_type.title ++ " email sent to " ++ club_name) now })

/-- The per-row effect of record_response on the (first) matching row,
    with the stage-transition logic of lines 138-149 of the source. -/
def applyResponse (email_type : EmailType) (response_type notes : String) (now : Nat)
    (r : StatusRecord) : StatusRecord :=
  let t := r.getStage email_type
  let r := r.setStage email_type
    { t with response_date := some now, response_type := some response_type,
             status := some response_type, notes := some notes }
  let r := { r with last_activity_date := some now, updated_at := some now }
  if response_type = positiveResponse then
    let r :=
      if email_type = EmailType.introduction then { r with current_stage := some "checkup" }
      else if email_type = EmailType.checkup then { r with current_stage := some "acceptance" }
      else if email_type = EmailType.acceptance then { r with current_stage := some "partnership_active" }
      else r
    { r with priority_level := some "high" }
  else if response_type = negativeResponse then
    { r with current_stage := some "not_interested", priority_level := some "low" }
  else r

/-- ClubStatusManager.record_response: returns False and leaves both CSVs
    unchanged when no row with the club's name exists; otherwise stamps the
    response on the first matching row, applies the stage-transition rules
    and emits a response_received notification. -/
def record_response (s : StatusState) (club_name : String) (email_type : EmailType)
    (response_type notes : String) (now : Nat) : Bool × StatusState :=
  if s.status.any (fun r => r.club_name == club_name) then
    let status' := updateFirst (fun r => r.club_name == club_name)
      (applyResponse email_type response_type notes now) s.status
    (true,
     { status := status',
       notifications := create_notification s.notifications club_name email_type.str
         "response_received"
         ("New " ++ pyReplaceChar response_type '_' ' ' ++ " response from " ++ club_name) now })
  else (false, s)

/-- ClubStatusManager.get_club_status: the first row whose club_name matches. -/
def get_club_status (s : StatusState) (club_name : String) : Option StatusRecord :=
  s.status.find? (fun r => r.club_name == club_name)

/-- ClubStatusManager.mark_notification_read: if a row with the id exists,
    set is_read on the first such row, overwrite read_at with the current
    time and return True; otherwise return False and change nothing. -/
def mark_notification_read (ns : List Notification) (notification_id : String)
    (now : Nat) : Bool × List Notification :=
  if ns.any (fun n => n.notification_id == notification_id) then
    (true, updateFirst (fun n => n.notification_id == notification_id)
      (fun n => { n with is_read := true, read_at := some now }) ns)
  else (false, ns)

/- ===== Python string helpers used by the research manager ===== -/

/-- True when `pat` occurs at the very front of `s`. -/
def leadsWith : List Char → List Char → Bool
  | [], _ => true
  | _ :: _, [] => false
  | p :: ps, c :: cs => p == c && leadsWith ps cs

/-- Index of the first occurrence of `pat` in `s` starting at offset `i`
    (helper for Python str.find; `none` models the -1 result). -/
def findSubAux (pat : List Char) : List Char → Nat → Option Nat
  | [], i => if leadsWith pat [] then some i else none
  | c :: rest, i =>
    if leadsWith pat (c :: rest) then some i else findSubAux pat rest (i + 1)

/-- Python str.find: index of the first occurrence, `none` for -1. -/
def pyFind (s pat : String) : Option Nat := findSubAux pat.data s.data 0

/-- Python str.replace(pat, "") on character lists: remove every
    (non-overlapping, leftmost-first) occurrence of `pat`. -/
def removeAllAux (pat : List Char) : List Char → List Char
  | [] => []
  | c :: rest =>
    if !pat.isEmpty && leadsWith pat (c :: rest) then
      removeAllAux pat (rest.drop (pat.length - 1))
    else c :: removeAllAux pat rest
termination_by l => l.length
decreasing_by
  · simp only [List.length_drop, List.length_cons]; omega
  · simp only [List.length_cons]; omega

/-- Python str.replace(pat, "") on strings. -/
def pyRemoveAll (s pat : String) : String := String.mk (removeAllAux pat.data s.data)

/-- The whitespace characters stripped by Python str.strip (ASCII part). -/
def pyIsSpace (c : Char) : Bool :=
  c == ' ' || c == '\t' || c == '\n' || c == '\r' || c == '\x0b' || c == '\x0c'

/-- Python str.strip on character lists. -/
def stripChars (s : List Char) : List Char :=
  ((s.dropWhile pyIsSpace).reverse.dropWhile pyIsSpace).reverse

/-- Python str.strip. -/
def pyStrip (s : String) : String := String.mk (stripChars s.data)

/-- Python s[i:j] (character based; an empty string when j ≤ i). -/
def pySlice (s : String) (i j : Nat) : String :=
  String.mk ((s.data.drop i).take (j - i))

/-- Python s[i:]. -/
def pySliceFrom (s : String) (i : Nat) : String := String.mk (s.data.drop i)

/-- Python `x if x else d` for an optional string: `d` when the value is
    None or empty. -/
def pyOrElse (o : Option String) (d : String) : String :=
  match o with
  | some s => if s == "" then d else s
  | none => d

/- ===== Cost tracking (CostTracker in src/src/club_research_manager.py,
        pricing table in src/src/config.py) ===== -/

/-- One entry of the PRICING table: per-million-token rates. -/
structure ModelPricing where
  input : ℚ
  cached_input : Option ℚ
  output : ℚ
deriving DecidableEq, Repr

/-- The PRICING table of src/src/config.py. -/
def PRICING (model : String) : Option ModelPricing :=
  if model == "o3" then
    some { input := 2, cached_input := some (1 / 2), output := 8 }
  else if model == "gpt-4.1-nano" then
    some { input := 1 / 10, cached_input := some (1 / 40), output := 2 / 5 }
  else none

/-- The default SEARCH_MODEL of src/src/config.py. -/
def SEARCH_MODEL : String := "o3"

/-- WEB_SEARCH_COST_PER_QUERY = WEB_SEARCH_COST_PER_1K_CALLS / 1000. -/
def WEB_SEARCH_COST_PER_QUERY : ℚ := 10 / 1000

/-- CostTracker.calculate_token_cost.  Python computes
    max(0, input_tokens - cached_tokens) for the regular input tokens,
    which is exactly truncated Nat subtraction here; the cached rate is
    applied only when cached_tokens > 0 and the model has a cached_input
    entry; an unknown model yields zero cost. -/
def calculate_token_cost (model : String) (input_tokens output_tokens : Nat)
    (cached_tokens : Nat) : ℚ :=
  match PRICING model with
  | none => 0
  | some p =>
    let regular_input_tokens : Nat := input_tokens - cached_tokens
    let input_cost := ((regular_input_tokens : ℚ) / 1000000) * p.input
    let cached_cost :=
      if 0 < cached_tokens then
        match p.cached_input with
        | some rate => ((cached_tokens : ℚ) / 1000000) * rate
        | none => 0
      else 0
    let output_cost := ((output_tokens : ℚ) / 1000000) * p.output
    input_cost + cached_cost + output_cost

/-- The costs dictionary of a CostTracker. -/
structure CostsState where
  search_cost : ℚ
  content_cost : ℚ
  web_search_cost : ℚ
  total_cost : ℚ
deriving DecidableEq, Repr

/-- CostTracker.__init__: all totals start at zero. -/
def CostsState.init : CostsState := ⟨0, 0, 0, 0⟩

/-- CostTracker.add_search_cost: charge a token-metered search call to the
    search bucket and to the grand total. -/
def add_search_cost (t : CostsState) (input_tokens output_tokens cached_tokens : Nat) :
    CostsState :=
  let cost := calculate_token_cost SEARCH_MODEL input_tokens output_tokens cached_tokens
  { t with search_cost := t.search_cost + cost, total_cost := t.total_cost + cost }

/-- CostTracker.add_web_search_cost: flat per-query charge. -/
def add_web_search_cost (t : CostsState) (num_queries : Nat) : CostsState :=
  let cost := (num_queries : ℚ) * WEB_SEARCH_COST_PER_QUERY
  { t with web_search_cost := t.web_search_cost + cost,
           total_cost := t.total_cost + cost }

/- ===== Research cache (ClubResearchManager) ===== -/

/-- One row of the research-results CSV. -/
structure ResearchRecord where
  club_name : String
  country : String
  website : String
  introduction_research : String
  checkup_research : String
  acceptance_research : String
  full_research_data : String
  search_cost : ℚ
  web_search_cost : ℚ
  total_cost : ℚ
  researched_at : Nat
  expires_at : Nat
  is_valid : Bool
deriving DecidableEq, Repr

/-- self.cache_expiry_days. -/
def cache_expiry_days : Nat := 30

/-- Seconds in a day: timedelta(days := n) is n * 86400 seconds. -/
def secondsPerDay : Nat := 86400

/-- The 30-day TTL in model time units. -/
def researchTTL : Nat := cache_expiry_days * secondsPerDay

/-- The three research sections plus the raw blob, as parsed and stored. -/
structure Sections where
  introduction_research : String
  checkup_research : String
  acceptance_research : String
  full_research_data : String
deriving DecidableEq, Repr

/-- The fixed section markers of the generator output. -/
def introMarker : String := "=== INTRODUCTION EMAIL RESEARCH ==="

/-- Second section marker. -/
def checkupMarker : String := "=== CHECK-UP EMAIL RESEARCH ==="

/-- Third section marker. -/
def acceptanceMarker : String := "=== ACCEPTANCE EMAIL RESEARCH ==="

/-- ClubResearchManager._parse_research_sections: split the raw blob at the
    fixed markers.  A section whose marker is absent stays the empty string
    (the sections dictionary is created with empty strings and only the
    branches guarded by a found marker overwrite them; the all-sections
    fallback of the source lives in an except handler that the straight-line
    string operations here never trigger). -/
def _parse_research_sections (full_research : String) : Sections :=
  let intro_start := pyFind full_research introMarker
  let checkup_start := pyFind full_research checkupMarker
  let intro :=
    match intro_start with
    | some i =>
      let intro_content :=
        match checkup_start with
        | some j => pyStrip (pySlice full_research i j)
        | none => pyStrip (pySliceFrom full_research i)
      pyStrip (pyRemoveAll intro_content introMarker)
    | none => ""
  let checkup :=
    match checkup_start with
    | some j =>
      let acceptance_start := pyFind full_research acceptanceMarker
      let checkup_content :=
        match acceptance_start with
        | some k => pyStrip (pySlice full_research j k)
        | none => pyStrip (pySliceFrom full_research j)
      pyStrip (pyRemoveAll checkup_content checkupMarker)
    | none => ""
  let acceptance :=
    match pyFind full_research acceptanceMarker with
    | some k =>
      pyStrip (pyRemoveAll (pyStrip (pySliceFrom full_research k)) acceptanceMarker)
    | none => ""
  { introduction_research := intro, checkup_research := checkup,
    acceptance_research := acceptance, full_research_data := full_research }

/-- ClubResearchManager._save_research_to_csv: drop every row of the club,
    then append one fresh row stamped researched_at = now and
    expires_at = now + 30 days. -/
def _save_research_to_csv (store : List ResearchRecord) (club_name country website : String)
    (sections : Sections) (full_research : String) (costs : CostsState) (now : Nat) :
    List ResearchRecord :=
  let kept := store.filter (fun r => !(r.club_name == club_name))
  kept ++ [{ club_name := club_name, country := country, website := website,
             introduction_research := sections.introduction_research,
             checkup_research := sections.checkup_research,
             acceptance_research := sections.acceptance_research,
             full_research_data := full_research,
             search_cost := costs.search_cost,
             web_search_cost := costs.web_search_cost,
             total_cost := costs.total_cost,
             researched_at := now, expires_at := now + researchTTL,
             is_valid := true }]

/-- ClubResearchManager.get_cached_research: the first row of the club, if
    fresh, is returned with the store untouched; an expired first row makes
    the function drop every row of the club and report a miss; no row at
    all is a plain miss. -/
def get_cached_research (store : List ResearchRecord) (club_name : String) (now : Nat) :
    Option ResearchRecord × List ResearchRecord :=
  match store.find? (fun r => r.club_name == club_name) with
  | some r =>
    if now < r.expires_at then (some r, store)
    else (none, store.filter (fun x => !(x.club_name == club_name)))
  | none => (none, store)

/-- The usage numbers of a generator response. -/
structure Usage where
  prompt_tokens : Nat
  completion_tokens : Nat
  prompt_tokens_cached : Nat
deriving DecidableEq, Repr

/-- Outcome of one call to the external content generator: a raw text blob
    with optional usage numbers, or a raised error. -/
inductive GenResult where
  | ok (content : String) (usage : Option Usage)
  | fail
deriving DecidableEq, Repr

/-- The fallback sections built in the except branch of
    research_club_with_o3 when the generator fails. -/
def fallback_sections (club_name : String) (country : Option String) : Sections :=
  { introduction_research :=
      "Unable to find specific current information about " ++ club_name ++
      " due to research limitations. General photography club activities assumed based on location: "
      ++ pyOrElse country "Unknown region" ++
      ". Focus on general photography community support and learning more about their specific activities.",
    checkup_research :=
      "No specific upcoming events or challenges found for " ++ club_name ++
      ". Suggest focusing on general photography season activities and mention common photography club needs and DxO benefits.",
    acceptance_research :=
      "No specific club structure information found for " ++ club_name ++
      ". Assume standard photography club structure with leadership team. Recommend standard member communication approach and focus on general DxO software benefits for club members.",
    full_research_data :=
      "Research failed for " ++ club_name ++ ". Using fallback information." }

/-- What one research request produces: the returned sections and cost
    figures, the store afterwards, and how many generator calls were made. -/
structure ResearchResult where
  sections : Sections
  from_cache : Bool
  search_cost : ℚ
  web_search_cost : ℚ
  total_cost : ℚ
  store : List ResearchRecord
  generator_calls : Nat
deriving DecidableEq, Repr

/-- ClubResearchManager.research_club_with_o3.  A cache hit returns the
    stored sections and stored cost figures and calls no generator.  On a
    miss the flat web-search fee is charged, the generator is called once;
    on success its usage is charged and its blob parsed and saved, on
    failure the fallback sections are saved instead; either way the record
    is persisted with the 30-day TTL and the function returns normally. -/
def research_club_with_o3 (store : List ResearchRecord) (club_name : String)
    (website country : Option String) (gen : GenResult) (now : Nat) : ResearchResult :=
  match get_cached_research store club_name now with
  | (some r, store') =>
    { sections := { introduction_research := r.introduction_research,
                    checkup_research := r.checkup_research,
                    acceptance_research := r.acceptance_research,
                    full_research_data := r.full_research_data },
      from_cache := true,
      search_cost := r.search_cost, web_search_cost := r.web_search_cost,
      total_cost := r.total_cost, store := store', generator_calls := 0 }
  | (none, store') =>
    let tracker := add_web_search_cost CostsState.init 1
    match gen with
    | .ok content usage =>
      let tracker :=
        match usage with
        | some u => add_search_cost tracker u.prompt_tokens u.completion_tokens
            u.prompt_tokens_cached
        | none => tracker
      let research_sections := _parse_research_sections content
      let store2 := _save_research_to_csv store' club_name (pyOrElse country "")
        (pyOrElse website "") research_sections content tracker now
      { sections := research_sections, from_cache := false,
        search_cost := tracker.search_cost, web_search_cost := tracker.web_search_cost,
        total_cost := tracker.total_cost, store := store2, generator_calls := 1 }
    | .fail =>
      let fb := fallback_sections club_name country
      let store2 := _save_research_to_csv store' club_name (pyOrElse country "")
        (pyOrElse website "") fb fb.full_research_data tracker now
      { sections := fb, from_cache := false,
        search_cost := tracker.search_cost, web_search_cost := tracker.web_search_cost,
        total_cost := tracker.total_cost, store := store2, generator_calls := 1 }

/- ===== Helper definitions used by the verification ===== -/

/-- The overall stage that a positive response at a given stage installs
    (lines 140-145 of club_status_manager.py). -/
def nextOverallStage : EmailType → String
  | .introduction => "checkup"
  | .checkup => "acceptance"
  | .acceptance => "partnership_active"

/-- The generation-cost formula exactly as the specification words it:
    (inputTokens - cachedTokens) * input + cachedTokens * cachedInput +
    outputTokens * output, rates per million units, with mathematical
    (possibly negative) subtraction.  Stated only to be compared with
    calculate_token_cost. -/
def spec_token_cost (p : ModelPricing) (input_tokens output_tokens cached_tokens : Nat) : ℚ :=
  ((input_tokens : ℚ) - (cached_tokens : ℚ)) / 1000000 * p.input +
  (cached_tokens : ℚ) / 1000000 * p.cached_input.getD 0 +
  (output_tokens : ℚ) / 1000000 * p.output

/-- Number of rows of the research store carrying a given club key. -/
def researchKeyCount (store : List ResearchRecord) (club_name : String) : Nat :=
  store.countP (fun r => r.club_name == club_name)

/-- The operations that rewrite the research store, for stating the
    upsert invariant over arbitrary operation sequences. -/
inductive ResearchOp where
  | save (club country website : String) (sections : Sections) (full : String)
      (costs : CostsState) (now : Nat)
  | research (club : String) (website country : Option String) (gen : GenResult) (now : Nat)
  | readCache (club : String) (now : Nat)

/-- The store produced by one research-manager operation. -/
def applyResearchOp (store : List ResearchRecord) : ResearchOp → List ResearchRecord
  | .save club country website sections full costs now =>
      _save_research_to_csv store club country website sections full costs now
  | .research club website country gen now =>
      (research_club_with_o3 store club website country gen now).store
  | .readCache club now => (get_cached_research store club now).2

/-- A concrete status state holding one club whose introduction email was
    sent but whose checkup stage was never touched. -/
def c5State : StatusState := (update_email_sent ⟨[], []⟩ "ClubX" EmailType.introduction "" 0).2

/-- A concrete research row that expired at time 5. -/
def c6OldRecord : ResearchRecord :=
  { club_name := "c", country := "", website := "", introduction_research := "old",
    checkup_research := "old", acceptance_research := "old", full_research_data := "old",
    search_cost := 0, web_search_cost := 0, total_cost := 0,
    researched_at := 0, expires_at := 5, is_valid := true }

/-- A concrete already-read notification. -/
def c9Notification : Notification :=
  { notification_id := "a", club_name := "c", email_type := "introduction",
    notification_type := "email_sent", message := "m", is_read := true,
    created_at := 0, read_at := some 5 }

/- ===== Generic list lemmas ===== -/

theorem find?_updateFirst (p : α → Bool) (f : α → α)
    (hpf : ∀ a, p a = true → p (f a) = true) :
    ∀ l : List α, (updateFirst p f l).find? p = (l.find? p).map f := by
  intro l
  induction l with
  | nil => rfl
  | cons a l ih =>
    by_cases h : p a
    · simp [updateFirst, h, List.find?_cons, hpf a h]
    · simp [updateFirst, h, List.find?_cons, ih]

theorem updateFirst_updateFirst (p : α → Bool) (f : α → α)
    (hpf : ∀ a, p a = true → p (f a) = true) (hff : ∀ a, f (f a) = f a) :
    ∀ l : List α, updateFirst p f (updateFirst p f l) = updateFirst p f l := by
  intro l
  induction l with
  | nil => rfl
  | cons a l ih =>
    by_cases h : p a
    · simp [updateFirst, h, hpf a h, hff a]
    · simp [updateFirst, h, ih]

theorem any_iff_find?_isSome (p : α → Bool) (l : List α) :
    l.any p = true ↔ ∃ x, l.find? p = some x := by
  induction l with
  | nil => simp
  | cons a l ih =>
    by_cases h : p a
    · simp [List.find?_cons, h]
    · simp [List.find?_cons, h, ih]

theorem find?_append_of_none (p : α → Bool) (l₁ l₂ : List α)
    (h : l₁.find? p = none) : (l₁ ++ l₂).find? p = l₂.find? p := by
  induction l₁ with
  | nil => rfl
  | cons a l ih =>
    by_cases ha : p a
    · simp [List.find?_cons, ha] at h
    · simp only [List.find?_cons, ha, List.cons_append] at h ⊢
      exact ih (by simpa using h)

theorem find?_filterNot_self (p : α → Bool) (l : List α) :
    (l.filter (fun a => !(p a))).find? p = none := by
  induction l with
  | nil => rfl
  | cons a l ih =>
    by_cases ha : p a
    · simp [List.filter_cons, ha, ih]
    · simp [List.filter_cons, ha, List.find?_cons, ih]

theorem find?_filterNot_append (p : α → Bool) (l : List α) (x : α) (hx : p x = true) :
    ((l.filter (fun a => !(p a))) ++ [x]).find? p = some x := by
  rw [find?_append_of_none p _ _ (find?_filterNot_self p l)]
  simp [List.find?_cons, hx]

theorem countP_filterNot_append (p : α → Bool) (l : List α) (x : α) (hx : p x = true) :
    ((l.filter (fun a => !(p a))) ++ [x]).countP p = 1 := by
  rw [List.countP_append]
  have h0 : (l.filter (fun a => !(p a))).countP p = 0 := by
    rw [List.countP_eq_zero]
    intro a ha
    rcases List.mem_filter.mp ha with ⟨_, hpa⟩
    simp at hpa
    simp [hpa]
  simp [h0, List.countP_cons, hx]

theorem countP_filter_le (p q : α → Bool) (l : List α) :
    (l.filter q).countP p ≤ l.countP p := by
  induction l with
  | nil => simp
  | cons a l ih =>
    rw [List.filter_cons]
    by_cases hq : q a
    · rw [if_pos hq, List.countP_cons, List.countP_cons]
      split_ifs <;> omega
    · rw [if_neg hq, List.countP_cons]
      split_ifs <;> omega

/- ===== Status-tracker lemmas ===== -/

theorem applyResponse_club_name (et : EmailType) (rt notes : String) (now : Nat)
    (r : StatusRecord) : (applyResponse et rt notes now r).club_name = r.club_name := by
  cases et <;> simp only [applyResponse, StatusRecord.setStage, StatusRecord.getStage] <;>
    split_ifs <;> rfl

theorem applyEmailSent_club_name (et : EmailType) (notes : String) (now : Nat)
    (r : StatusRecord) : (applyEmailSent et notes now r).club_name = r.club_name := by
  cases et <;> rfl

theorem applyResponse_positive_fields (stage : EmailType) (notes : String) (now : Nat)
    (r : StatusRecord) :
    (applyResponse stage positiveResponse notes now r).current_stage =
      some (nextOverallStage stage) ∧
    (applyResponse stage positiveResponse notes now r).priority_level = some "high" := by
  cases stage <;>
    simp [applyResponse, nextOverallStage, positiveResponse, negativeResponse,
      StatusRecord.setStage, StatusRecord.getStage]

theorem applyResponse_negative_fields (stage : EmailType) (notes : String) (now : Nat)
    (r : StatusRecord) :
    (applyResponse stage negativeResponse notes now r).current_stage = some "not_interested" ∧
    (applyResponse stage negativeResponse notes now r).priority_level = some "low" := by
  cases stage <;>
    simp [applyResponse, positiveResponse, negativeResponse,
      StatusRecord.setStage, StatusRecord.getStage]

theorem applyResponse_response_type (stage : EmailType) (rt notes : String) (now : Nat)
    (r : StatusRecord) :
    ((applyResponse stage rt notes now r).getStage stage).response_type = some rt := by
  cases stage <;> simp only [applyResponse, StatusRecord.setStage, StatusRecord.getStage] <;>
    split_ifs <;> rfl

theorem applyEmailSent_current_stage (stage : EmailType) (notes : String) (now : Nat)
    (r : StatusRecord) :
    (applyEmailSent stage notes now r).current_stage = some stage.str := by
  cases stage <;> rfl

/- ===== Research-cache lemmas ===== -/

theorem save_find (store : List ResearchRecord) (club country website : String)
    (sections : Sections) (full : String) (costs : CostsState) (now : Nat) :
    (_save_research_to_csv store club country website sections full costs now).find?
        (fun r => r.club_name == club) =
      some { club_name := club, country := country, website := website,
             introduction_research := sections.introduction_research,
             checkup_research := sections.checkup_research,
             acceptance_research := sections.acceptance_research,
             full_research_data := full,
             search_cost := costs.search_cost,
             web_search_cost := costs.web_search_cost,
             total_cost := costs.total_cost,
             researched_at := now, expires_at := now + researchTTL,
             is_valid := true } := by
  unfold _save_research_to_csv
  exact find?_filterNot_append _ _ _ (by simp)

theorem save_keyCount_self (store : List ResearchRecord) (club country website : String)
    (sections : Sections) (full : String) (costs : CostsState) (now : Nat) :
    researchKeyCount (_save_research_to_csv store club country website sections full costs now)
      club = 1 := by
  unfold researchKeyCount _save_research_to_csv
  exact countP_filterNot_append _ _ _ (by simp)

theorem save_keyCount_le (store : List ResearchRecord) (club country website : String)
    (sections : Sections) (full : String) (costs : CostsState) (now : Nat) (k : String)
    (h : researchKeyCount store k ≤ 1) :
    researchKeyCount (_save_research_to_csv store club country website sections full costs now)
      k ≤ 1 := by
  by_cases hk : k = club
  · rw [hk, save_keyCount_self]
  · unfold researchKeyCount _save_research_to_csv
    rw [List.countP_append]
    have h1 : (store.filter
        (fun r => !(r.club_name == club))).countP (fun r => r.club_name == k) ≤ 1 :=
      le_trans (countP_filter_le _ _ _) h
    have h2 : ∀ x : ResearchRecord, x.club_name = club →
        ([x].countP (fun r => r.club_name == k) = 0) := by
      intro x hx
      simp [List.countP_cons, hx, Ne.symm hk]
    rw [h2 _ rfl]
    omega

theorem get_cached_snd (store : List ResearchRecord) (club : String) (now : Nat) :
    (get_cached_research store club now).2 = store ∨
    (get_cached_research store club now).2 =
      store.filter (fun x => !(x.club_name == club)) := by
  unfold get_cached_research
  cases hf : store.find? (fun r => r.club_name == club) with
  | none => exact Or.inl rfl
  | some r =>
    by_cases ht : now < r.expires_at
    · simp [ht]
    · simp [ht]

theorem get_cached_keyCount_le (store : List ResearchRecord) (club : String) (now : Nat)
    (k : String) (h : researchKeyCount store k ≤ 1) :
    researchKeyCount (get_cached_research store club now).2 k ≤ 1 := by
  rcases get_cached_snd store club now with heq | heq <;> rw [heq]
  · exact h
  · exact le_trans (countP_filter_le _ _ _) h

/-- On a cache hit, research_club_with_o3 returns the stored sections and
    cost figures, leaves the store untouched and makes no generator call. -/
theorem research_hit (store : List ResearchRecord) (club : String)
    (website country : Option String) (gen : GenResult) (now : Nat) (rec : ResearchRecord)
    (hfind : store.find? (fun r => r.club_name == club) = some rec)
    (hfresh : now < rec.expires_at) :
    research_club_with_o3 store club website country gen now =
      { sections := { introduction_research := rec.introduction_research,
                      checkup_research := rec.checkup_research,
                      acceptance_research := rec.acceptance_research,
                      full_research_data := rec.full_research_data },
        from_cache := true,
        search_cost := rec.search_cost, web_search_cost := rec.web_search_cost,
        total_cost := rec.total_cost, store := store, generator_calls := 0 } := by
  unfold research_club_with_o3 get_cached_research
  rw [hfind]
  simp [hfresh]

/-- On a cache miss, research_club_with_o3 makes exactly one generator call
    and stores one fresh record for the club, stamped with the current time
    and the 30-day TTL, whose stored sections are exactly the returned
    sections; the grand research cost of the saved row equals the newly
    charged total. -/
theorem research_miss (store : List ResearchRecord) (club : String)
    (website country : Option String) (gen : GenResult) (now : Nat)
    (hmiss : (get_cached_research store club now).1 = none) :
    (research_club_with_o3 store club website country gen now).generator_calls = 1 ∧
    (research_club_with_o3 store club website country gen now).from_cache = false ∧
    researchKeyCount (research_club_with_o3 store club website country gen now).store club = 1 ∧
    ∃ rec, (research_club_with_o3 store club website country gen now).store.find?
        (fun r => r.club_name == club) = some rec ∧
      rec.club_name = club ∧ rec.researched_at = now ∧
      rec.expires_at = now + researchTTL ∧
      (research_club_with_o3 store club website country gen now).sections =
        { introduction_research := rec.introduction_research,
          checkup_research := rec.checkup_research,
          acceptance_research := rec.acceptance_research,
          full_research_data := rec.full_research_data } ∧
      rec.total_cost = (research_club_with_o3 store club website country gen now).total_cost := by
  unfold research_club_with_o3
  rcases hsnd : get_cached_research store club now with ⟨fst, store'⟩
  rw [hsnd] at hmiss
  simp only at hmiss
  subst hmiss
  cases gen with
  | ok content usage =>
    cases usage with
    | none =>
      refine ⟨rfl, rfl, save_keyCount_self _ _ _ _ _ _ _ _, ?_⟩
      exact ⟨_, save_find _ _ _ _ _ _ _ _, rfl, rfl, rfl, rfl, rfl⟩
    | some u =>
      refine ⟨rfl, rfl, save_keyCount_self _ _ _ _ _ _ _ _, ?_⟩
      exact ⟨_, save_find _ _ _ _ _ _ _ _, rfl, rfl, rfl, rfl, rfl⟩
  | fail =>
    refine ⟨rfl, rfl, save_keyCount_self _ _ _ _ _ _ _ _, ?_⟩
    exact ⟨_, save_find _ _ _ _ _ _ _ _, rfl, rfl, rfl, rfl, rfl⟩

/- ===== Claim theorems: campaign state tracker ===== -/

/-- Claim C1: for every organization with an existing StatusRecord,
    recording a POSITIVE response at introduction sets the stored overall
    stage to checkup, at checkup to acceptance, at acceptance to
    partnership_active, each time with priority high; recording a NEGATIVE
    response at any stage sets the overall stage to not_interested and the
    priority to low. -/
theorem record_response_stage_transitions (s : StatusState) (club notes : String)
    (now : Nat) (h : s.status.any (fun r => r.club_name == club) = true) :
    (∀ stage : EmailType,
      (get_club_status (record_response s club stage positiveResponse notes now).2 club).map
          (fun r => (r.current_stage, r.priority_level)) =
        some (some (nextOverallStage stage), some "high")) ∧
    (∀ stage : EmailType,
      (get_club_status (record_response s club stage negativeResponse notes now).2 club).map
          (fun r => (r.current_stage, r.priority_level)) =
        some (some "not_interested", some "low")) := by
  obtain ⟨x, hx⟩ := (any_iff_find?_isSome _ _).mp h
  constructor <;> intro stage <;>
    · unfold record_response get_club_status
      rw [if_pos h]
      simp only
      rw [find?_updateFirst _ _
        (fun a ha => by rw [applyResponse_club_name]; exact ha), hx]
      simp [applyResponse_positive_fields stage notes now x,
        applyResponse_negative_fields stage notes now x]

/-- Claim C1 witness at a concrete state: a positive introduction response
    moves ClubX to overall stage checkup with priority high. -/
theorem record_response_stage_transitions_witness :
    c5State.status.any (fun r => r.club_name == "ClubX") = true ∧
    (get_club_status
        (record_response c5State "ClubX" EmailType.introduction positiveResponse "n" 1).2
        "ClubX").map (fun r => (r.current_stage, r.priority_level)) =
      some (some "checkup", some "high") :=
  ⟨by decide,
   (record_response_stage_transitions c5State "ClubX" "n" 1 (by decide)).1
     EmailType.introduction⟩

/-- Claim C5 counterexample: ClubX has a StatusRecord (introduction was
    sent) but the checkup stage has no SENT sub-state, yet record_response
    at the checkup stage succeeds instead of failing with NotFound. -/
theorem record_response_without_sent_succeeds :
    (get_club_status c5State "ClubX").map
        (fun r => (r.checkup.sent_date, r.checkup.status)) = some (none, none) ∧
    (record_response c5State "ClubX" EmailType.checkup positiveResponse "" 1).1 = true := by
  decide

/-- Claim C5 amended: record_response fails exactly when the organization
    has no StatusRecord at all — the per-stage SENT sub-state is never
    consulted; on failure the state is returned unchanged; whenever a
    StatusRecord exists the response is recorded on that stage, even if the
    stage was never sent. -/
theorem record_response_requires_status_record (s : StatusState) (club : String)
    (stage : EmailType) (rt notes : String) (now : Nat) :
    ((record_response s club stage rt notes now).1 = true ↔
      s.status.any (fun r => r.club_name == club) = true) ∧
    (s.status.any (fun r => r.club_name == club) = false →
      record_response s club stage rt notes now = (false, s)) ∧
    (s.status.any (fun r => r.club_name == club) = true →
      (get_club_status (record_response s club stage rt notes now).2 club).map
          (fun r => (r.getStage stage).response_type) = some (some rt)) := by
  by_cases h : s.status.any (fun r => r.club_name == club) = true
  · obtain ⟨x, hx⟩ := (any_iff_find?_isSome _ _).mp h
    refine ⟨by simp [record_response, h], by simp [h], fun _ => ?_⟩
    unfold record_response get_club_status
    rw [if_pos h]
    simp only
    rw [find?_updateFirst _ _
      (fun a ha => by rw [applyResponse_club_name]; exact ha), hx]
    simp [applyResponse_response_type stage rt notes now x]
  · rw [Bool.not_eq_true] at h
    refine ⟨?_, fun _ => by simp [record_response, h], fun hc => absurd hc (by simp [h])⟩
    simp [record_response, h]

/-- Claim C5 amended witness: with no StatusRecord at all, record_response
    returns false and leaves the empty state unchanged. -/
theorem record_response_requires_status_record_witness :
    ((⟨[], []⟩ : StatusState).status.any (fun r => r.club_name == "ClubX") = false) ∧
    record_response ⟨[], []⟩ "ClubX" EmailType.checkup positiveResponse "" 1 =
      (false, ⟨[], []⟩) :=
  ⟨rfl,
   (record_response_requires_status_record ⟨[], []⟩ "ClubX" EmailType.checkup
     positiveResponse "" 1).2.1 rfl⟩

/-- Claim C9 counterexample: marking an already-read notification again at
    a later time returns true and rewrites read_at, so the second call does
    not leave the notification store unchanged. -/
theorem mark_notification_read_updates_read_at :
    c9Notification.is_read = true ∧
    (mark_notification_read [c9Notification] "a" 6).1 = true ∧
    (mark_notification_read [c9Notification] "a" 6).2 ≠ [c9Notification] := by
  decide

/-- Claim C9 amended: mark_notification_read never throws and returns a
    boolean success flag; it is a no-op returning false when the identifier
    is not found; when the notification exists it returns true and sets
    is_read while overwriting read_at with the current time even if already
    read, so repeating the call at the same timestamp leaves the store
    unchanged (while a later timestamp refreshes read_at). -/
theorem mark_notification_read_flag_idempotent (ns : List Notification) (nid : String)
    (now : Nat) :
    ((mark_notification_read ns nid now).1 = true ↔
      ns.any (fun n => n.notification_id == nid) = true) ∧
    (ns.any (fun n => n.notification_id == nid) = false →
      mark_notification_read ns nid now = (false, ns)) ∧
    (mark_notification_read (mark_notification_read ns nid now).2 nid now).2 =
      (mark_notification_read ns nid now).2 := by
  by_cases h : ns.any (fun n => n.notification_id == nid) = true
  · obtain ⟨x, hx⟩ := (any_iff_find?_isSome _ _).mp h
    have hpres : ∀ n : Notification, (n.notification_id == nid) = true →
        ((({ n with is_read := true, read_at := some now } : Notification).notification_id
          == nid) = true) := fun n hn => hn
    have hany2 : (updateFirst (fun n => n.notification_id == nid)
        (fun n => { n with is_read := true, read_at := some now }) ns).any
        (fun n => n.notification_id == nid) = true := by
      apply (any_iff_find?_isSome _ _).mpr
      rw [find?_updateFirst _ _ hpres, hx]
      exact ⟨_, rfl⟩
    refine ⟨by simp [mark_notification_read, h], by simp [h], ?_⟩
    unfold mark_notification_read
    rw [if_pos h]
    simp only
    rw [if_pos hany2]
    simp only
    exact updateFirst_updateFirst _ _ hpres (fun a => rfl) ns
  · rw [Bool.not_eq_true] at h
    refine ⟨by simp [mark_notification_read, h], fun _ => by simp [mark_notification_read, h], ?_⟩
    unfold mark_notification_read
    rw [if_neg (by simp [h])]

/-- Claim C9 amended witness: an unknown identifier makes
    mark_notification_read a no-op returning false. -/
theorem mark_notification_read_flag_idempotent_witness :
    ([c9Notification].any (fun n => n.notification_id == "zzz") = false) ∧
    mark_notification_read [c9Notification] "zzz" 7 = (false, [c9Notification]) :=
  ⟨by decide,
   (mark_notification_read_flag_idempotent [c9Notification] "zzz" 7).2.1 (by decide)⟩

/-- Claim C10: after every update_email_sent call the stored overall stage
    equals the stage argument of that call, whatever it was before — a send
    unconditionally overwrites any derived or terminal overall stage. -/
theorem update_email_sent_sets_current_stage (s : StatusState) (club notes : String)
    (stage : EmailType) (now : Nat) :
    (update_email_sent s club stage notes now).1 = true ∧
    (get_club_status (update_email_sent s club stage notes now).2 club).map
        (fun r => r.current_stage) = some (some stage.str) := by
  refine ⟨rfl, ?_⟩
  unfold update_email_sent get_club_status
  simp only
  by_cases h : s.status.any (fun r => r.club_name == club) = true
  · obtain ⟨x, hx⟩ := (any_iff_find?_isSome _ _).mp h
    rw [if_pos h]
    rw [find?_updateFirst _ _
      (fun a ha => by rw [applyEmailSent_club_name]; exact ha), hx]
    simp [applyEmailSent_current_stage stage notes now x]
  · rw [Bool.not_eq_true] at h
    rw [if_neg (by simp [h])]
    have hnone : s.status.find? (fun r => r.club_name == club) = none := by
      rw [List.find?_eq_none]
      intro x hxmem
      have := List.any_eq_false.mp h x hxmem
      simpa using this
    rw [find?_updateFirst _ _
      (fun a ha => by rw [applyEmailSent_club_name]; exact ha)]
    rw [find?_append_of_none _ _ _ hnone]
    have hfind : ([newStatusRecord club stage now].find? (fun r => r.club_name == club)) =
        some (newStatusRecord club stage now) := by
      simp [List.find?_cons, newStatusRecord]
    rw [hfind]
    simp [applyEmailSent_current_stage stage notes now (newStatusRecord club stage now)]

/- ===== Further research-cache lemmas ===== -/

theorem append_ne_empty_left (a b : String) (ha : a ≠ "") : a ++ b ≠ "" := by
  cases a with
  | mk la =>
    cases b with
    | mk lb =>
      intro h
      apply ha
      have hd : la ++ lb = ([] : List Char) := congrArg String.data h
      rcases List.append_eq_nil.mp hd with ⟨h1, _⟩
      rw [h1]

theorem fallback_sections_nonempty (club : String) (country : Option String) :
    (fallback_sections club country).introduction_research ≠ "" ∧
    (fallback_sections club country).checkup_research ≠ "" ∧
    (fallback_sections club country).acceptance_research ≠ "" := by
  unfold fallback_sections
  refine ⟨?_, ?_, ?_⟩ <;> simp only <;> repeat' apply append_ne_empty_left
  all_goals decide

theorem filter_filterNot_other (p q : α → Bool) (l : List α)
    (himp : ∀ a, p a = true → q a = false) :
    (l.filter (fun a => !(q a))).filter p = l.filter p := by
  induction l with
  | nil => rfl
  | cons a l ih =>
    by_cases hq : q a
    · have hp : p a = false := by
        by_cases hp : p a
        · exact absurd (himp a hp) (by simp [hq])
        · simpa using hp
      simp [List.filter_cons, hq, hp, ih]
    · simp [List.filter_cons, hq, ih]

theorem save_filter_other (store : List ResearchRecord) (club country website : String)
    (sections : Sections) (full : String) (costs : CostsState) (now : Nat)
    (other : String) (hne : other ≠ club) :
    (_save_research_to_csv store club country website sections full costs now).filter
        (fun r => r.club_name == other) =
      store.filter (fun r => r.club_name == other) := by
  unfold _save_research_to_csv
  rw [List.filter_append]
  have h2 : ∀ x : ResearchRecord, x.club_name = club →
      ([x].filter (fun r => r.club_name == other) = []) := by
    intro x hx
    simp [List.filter_cons, hx, Ne.symm hne]
  rw [h2 _ rfl, List.append_nil]
  apply filter_filterNot_other
  intro a ha
  have : a.club_name = other := by simpa using ha
  simp [this, hne]

theorem applyOp_keyCount_le (store : List ResearchRecord)
    (h : ∀ k, researchKeyCount store k ≤ 1) (op : ResearchOp) (k : String) :
    researchKeyCount (applyResearchOp store op) k ≤ 1 := by
  cases op with
  | save club country website sections full costs now =>
    exact save_keyCount_le store club country website sections full costs now k (h k)
  | readCache club now =>
    exact get_cached_keyCount_le store club now k (h k)
  | research club website country gen now =>
    show researchKeyCount (research_club_with_o3 store club website country gen now).store k ≤ 1
    unfold research_club_with_o3
    rcases hsnd : get_cached_research store club now with ⟨fst, store'⟩
    have hle : ∀ k2, researchKeyCount store' k2 ≤ 1 := by
      intro k2
      have hq := get_cached_keyCount_le store club now k2 (h k2)
      rw [hsnd] at hq
      exact hq
    cases fst with
    | some r => simpa using hle k
    | none =>
      cases gen with
      | ok content usage =>
        cases usage with
        | none => simpa using save_keyCount_le store' club _ _ _ _ _ _ k (hle k)
        | some u => simpa using save_keyCount_le store' club _ _ _ _ _ _ k (hle k)
      | fail => simpa using save_keyCount_le store' club _ _ _ _ _ _ k (hle k)

theorem foldl_keyCount (ops : List ResearchOp) :
    ∀ store : List ResearchRecord, (∀ k, researchKeyCount store k ≤ 1) →
      ∀ k, researchKeyCount (ops.foldl applyResearchOp store) k ≤ 1 := by
  induction ops with
  | nil => intro store h k; exact h k
  | cons op ops ih =>
    intro store h k
    exact ih _ (fun k2 => applyOp_keyCount_le store h op k2) k

/- ===== Claim theorems: research cache and costs ===== -/

/-- Claim C2: starting from a state where the club has no fresh cached
    record, two research requests inside the 30-day TTL window call the
    external generator exactly once: the first call performs it, the second
    finds the freshly stored record, returns its stored sections, leaves
    the store untouched and calls no generator. -/
theorem research_two_gets_one_generator_call (store : List ResearchRecord)
    (club : String) (website country website2 country2 : Option String)
    (gen1 gen2 : GenResult) (t0 t1 : Nat)
    (hmiss : (get_cached_research store club t0).1 = none)
    (httl : t1 < t0 + researchTTL) :
    (research_club_with_o3 store club website country gen1 t0).generator_calls = 1 ∧
    (research_club_with_o3 (research_club_with_o3 store club website country gen1 t0).store
        club website2 country2 gen2 t1).generator_calls = 0 ∧
    (research_club_with_o3 (research_club_with_o3 store club website country gen1 t0).store
        club website2 country2 gen2 t1).store =
      (research_club_with_o3 store club website country gen1 t0).store ∧
    ∃ rec, (research_club_with_o3 store club website country gen1 t0).store.find?
        (fun r => r.club_name == club) = some rec ∧
      (research_club_with_o3 (research_club_with_o3 store club website country gen1 t0).store
          club website2 country2 gen2 t1).sections =
        { introduction_research := rec.introduction_research,
          checkup_research := rec.checkup_research,
          acceptance_research := rec.acceptance_research,
          full_research_data := rec.full_research_data } := by
  obtain ⟨hcalls, _, _, rec, hfind, _, _, hexp, _, _⟩ :=
    research_miss store club website country gen1 t0 hmiss
  have hfresh : t1 < rec.expires_at := by rw [hexp]; exact httl
  have hhit := research_hit _ club website2 country2 gen2 t1 rec hfind hfresh
  refine ⟨hcalls, ?_, ?_, rec, hfind, ?_⟩
  · rw [hhit]
  · rw [hhit]
  · rw [hhit]

/-- Claim C2 witness: a concrete pair of requests at times 0 and 1 from an
    empty store. -/
theorem research_two_gets_one_generator_call_witness :
    (get_cached_research [] "c" 0).1 = none ∧ 1 < 0 + researchTTL ∧
    ((research_club_with_o3 [] "c" none none .fail 0).generator_calls = 1 ∧
     (research_club_with_o3 (research_club_with_o3 [] "c" none none .fail 0).store
        "c" none none .fail 1).generator_calls = 0 ∧
     (research_club_with_o3 (research_club_with_o3 [] "c" none none .fail 0).store
        "c" none none .fail 1).store =
       (research_club_with_o3 [] "c" none none .fail 0).store ∧
     ∃ rec, (research_club_with_o3 [] "c" none none .fail 0).store.find?
         (fun r => r.club_name == "c") = some rec ∧
       (research_club_with_o3 (research_club_with_o3 [] "c" none none .fail 0).store
           "c" none none .fail 1).sections =
         { introduction_research := rec.introduction_research,
           checkup_research := rec.checkup_research,
           acceptance_research := rec.acceptance_research,
           full_research_data := rec.full_research_data }) :=
  ⟨rfl, by decide,
   research_two_gets_one_generator_call [] "c" none none none none .fail .fail 0 1
     rfl (by decide)⟩

/-- Claim C3: a save deletes every row of the saved key and inserts exactly
    one fresh row, leaving rows of every other key untouched, and over any
    sequence of research-store operations from the empty store each key
    holds at most one row. -/
theorem research_store_upsert_invariant :
    (∀ (store : List ResearchRecord) (club country website : String) (sections : Sections)
        (full : String) (costs : CostsState) (now : Nat),
      researchKeyCount (_save_research_to_csv store club country website sections full costs now)
        club = 1) ∧
    (∀ (store : List ResearchRecord) (club country website : String) (sections : Sections)
        (full : String) (costs : CostsState) (now : Nat) (other : String), other ≠ club →
      (_save_research_to_csv store club country website sections full costs now).filter
          (fun r => r.club_name == other) =
        store.filter (fun r => r.club_name == other)) ∧
    (∀ (ops : List ResearchOp) (club : String),
      researchKeyCount (ops.foldl applyResearchOp []) club ≤ 1) := by
  refine ⟨save_keyCount_self, save_filter_other, fun ops club => ?_⟩
  exact foldl_keyCount ops [] (fun k => by simp [researchKeyCount]) club

/-- Claim C3 witness: saving a record for club a leaves the (empty) set of
    rows of club b unchanged. -/
theorem research_store_upsert_invariant_witness :
    ("b" : String) ≠ "a" ∧
    (_save_research_to_csv [] "a" "" "" ⟨"", "", "", ""⟩ "" CostsState.init 0).filter
        (fun r => r.club_name == "b") =
      ([] : List ResearchRecord).filter (fun r => r.club_name == "b") :=
  ⟨by decide,
   research_store_upsert_invariant.2.1 [] "a" "" "" ⟨"", "", "", ""⟩ "" CostsState.init 0
     "b" (by decide)⟩

/-- Claim C4: when the generator fails on a cache miss, the research
    operation still returns normally with the fallback sections, all three
    per-stage fallback texts are non-empty, and the fallback record is
    persisted through the save path with the same 30-day TTL. -/
theorem research_generator_failure_fallback (store : List ResearchRecord) (club : String)
    (website country : Option String) (now : Nat)
    (hmiss : (get_cached_research store club now).1 = none) :
    (research_club_with_o3 store club website country .fail now).sections =
      fallback_sections club country ∧
    (fallback_sections club country).introduction_research ≠ "" ∧
    (fallback_sections club country).checkup_research ≠ "" ∧
    (fallback_sections club country).acceptance_research ≠ "" ∧
    (research_club_with_o3 store club website country .fail now).generator_calls = 1 ∧
    ∃ rec, (research_club_with_o3 store club website country .fail now).store.find?
        (fun r => r.club_name == club) = some rec ∧
      rec.introduction_research = (fallback_sections club country).introduction_research ∧
      rec.checkup_research = (fallback_sections club country).checkup_research ∧
      rec.acceptance_research = (fallback_sections club country).acceptance_research ∧
      rec.expires_at = now + researchTTL := by
  obtain ⟨hne1, hne2, hne3⟩ := fallback_sections_nonempty club country
  unfold research_club_with_o3
  rcases hsnd : get_cached_research store club now with ⟨fst, store'⟩
  rw [hsnd] at hmiss
  simp only at hmiss
  subst hmiss
  refine ⟨rfl, hne1, hne2, hne3, rfl, ?_⟩
  exact ⟨_, save_find _ _ _ _ _ _ _ _, rfl, rfl, rfl, rfl⟩

/-- Claim C4 witness: generator failure on an empty store. -/
theorem research_generator_failure_fallback_witness :
    (get_cached_research [] "c" 0).1 = none ∧
    (research_club_with_o3 [] "c" none none .fail 0).sections =
      fallback_sections "c" none :=
  ⟨rfl, (research_generator_failure_fallback [] "c" none none 0 rfl).1⟩

/-- Claim C6: a research request finding only an expired record evicts it,
    performs exactly one fresh generator call, and stores a single new
    record stamped researched_at = now and expires_at = now + 30 days. -/
theorem research_expired_record_refreshed (store : List ResearchRecord) (club : String)
    (website country : Option String) (gen : GenResult) (now : Nat) (rec : ResearchRecord)
    (hfind : store.find? (fun r => r.club_name == club) = some rec)
    (hexpired : rec.expires_at ≤ now) :
    (research_club_with_o3 store club website country gen now).generator_calls = 1 ∧
    researchKeyCount (research_club_with_o3 store club website country gen now).store club = 1 ∧
    ∃ newRec, (research_club_with_o3 store club website country gen now).store.find?
        (fun r => r.club_name == club) = some newRec ∧
      newRec.researched_at = now ∧ newRec.expires_at = now + researchTTL := by
  have hmiss : (get_cached_research store club now).1 = none := by
    have hnl : ¬ now < rec.expires_at := by omega
    unfold get_cached_research
    rw [hfind]
    simp [hnl]
  obtain ⟨h1, _, h3, newRec, hf, _, hrat, hexp, _, _⟩ :=
    research_miss store club website country gen now hmiss
  exact ⟨h1, h3, newRec, hf, hrat, hexp⟩

/-- Claim C6 witness: a record that expired at time 5, read at time 10. -/
theorem research_expired_record_refreshed_witness :
    ([c6OldRecord].find? (fun r => r.club_name == "c") = some c6OldRecord) ∧
    c6OldRecord.expires_at ≤ 10 ∧
    ((research_club_with_o3 [c6OldRecord] "c" none none .fail 10).generator_calls = 1 ∧
     researchKeyCount (research_club_with_o3 [c6OldRecord] "c" none none .fail 10).store
       "c" = 1 ∧
     ∃ newRec, (research_club_with_o3 [c6OldRecord] "c" none none .fail 10).store.find?
         (fun r => r.club_name == "c") = some newRec ∧
       newRec.researched_at = 10 ∧ newRec.expires_at = 10 + researchTTL) :=
  ⟨by decide, by decide,
   research_expired_record_refreshed [c6OldRecord] "c" none none .fail 10 c6OldRecord
     (by decide) (by decide)⟩

/-- Claim C7 counterexample: the raw blob "hello" contains none of the
    three markers, yet parsing stores the empty string in all three
    sections instead of falling back to the raw blob. -/
theorem parse_missing_markers_counterexample :
    pyFind "hello" introMarker = none ∧
    pyFind "hello" checkupMarker = none ∧
    pyFind "hello" acceptanceMarker = none ∧
    (_parse_research_sections "hello").introduction_research = "" ∧
    (_parse_research_sections "hello").checkup_research = "" ∧
    (_parse_research_sections "hello").acceptance_research = "" ∧
    (_parse_research_sections "hello").introduction_research ≠ "hello" := by
  decide

/-- Claim C7 amended: when the fixed section markers are all missing from
    the raw blob, the three stored sections are all the empty string — the
    raw blob is kept only in full_research_data; the all-sections raw-blob
    fallback is reached only from the exception handler, which the
    straight-line parsing never triggers. -/
theorem parse_missing_markers_sections_empty (full : String)
    (h1 : pyFind full introMarker = none) (h2 : pyFind full checkupMarker = none)
    (h3 : pyFind full acceptanceMarker = none) :
    _parse_research_sections full =
      { introduction_research := "", checkup_research := "",
        acceptance_research := "", full_research_data := full } := by
  simp [_parse_research_sections, h1, h2, h3]

/-- Claim C7 amended witness: the marker-free blob "hello". -/
theorem parse_missing_markers_sections_empty_witness :
    pyFind "hello" introMarker = none ∧
    pyFind "hello" checkupMarker = none ∧
    pyFind "hello" acceptanceMarker = none ∧
    _parse_research_sections "hello" =
      { introduction_research := "", checkup_research := "",
        acceptance_research := "", full_research_data := "hello" } :=
  ⟨by decide, by decide, by decide,
   parse_missing_markers_sections_empty "hello" (by decide) (by decide) (by decide)⟩

/-- Claim C8 counterexample: with the o3 pricing and cachedTokens greater
    than inputTokens, the code clamps the regular-input term at zero while
    the specified formula goes negative, so the two disagree. -/
theorem calculate_token_cost_clamps :
    calculate_token_cost "o3" 0 0 1 = 1 / 2000000 ∧
    spec_token_cost { input := 2, cached_input := some (1 / 2), output := 8 } 0 0 1 =
      -(3 / 2000000) ∧
    calculate_token_cost "o3" 0 0 1 ≠
      spec_token_cost { input := 2, cached_input := some (1 / 2), output := 8 } 0 0 1 := by
  refine ⟨?_, ?_, ?_⟩ <;>
    norm_num [calculate_token_cost, spec_token_cost, PRICING]

/-- Claim C8 amended: for every pricing kind in the table, the computed
    cost is max(0, inputTokens - cachedTokens)/1M * input +
    cachedTokens/1M * cachedInput + outputTokens/1M * output (the
    regular-input term is clamped at zero), and add_search_cost adds that
    amount to both the search bucket and the grand total. -/
theorem calculate_token_cost_formula (model : String) (p : ModelPricing)
    (hp : PRICING model = some p) (i o c : Nat) (t : CostsState) :
    calculate_token_cost model i o c =
      ((i - c : Nat) : ℚ) / 1000000 * p.input +
        (c : ℚ) / 1000000 * p.cached_input.getD 0 +
        (o : ℚ) / 1000000 * p.output ∧
    (add_search_cost t i o c).search_cost =
      t.search_cost + calculate_token_cost SEARCH_MODEL i o c ∧
    (add_search_cost t i o c).total_cost =
      t.total_cost + calculate_token_cost SEARCH_MODEL i o c ∧
    (add_search_cost t i o c).content_cost = t.content_cost ∧
    (add_search_cost t i o c).web_search_cost = t.web_search_cost := by
  refine ⟨?_, rfl, rfl, rfl, rfl⟩
  unfold calculate_token_cost
  rw [hp]
  simp only
  by_cases hc : 0 < c
  · rw [if_pos hc]
    cases hcache : p.cached_input with
    | none => simp
    | some rate => simp
  · rw [if_neg hc]
    have hc0 : c = 0 := by omega
    subst hc0
    simp

/-- Claim C8 amended witness: the o3 pricing entry at a concrete token
    triple. -/
theorem calculate_token_cost_formula_witness :
    PRICING "o3" = some { input := 2, cached_input := some (1 / 2), output := 8 } ∧
    calculate_token_cost "o3" 5 7 2 =
      ((5 - 2 : Nat) : ℚ) / 1000000 * (2 : ℚ) +
        (2 : ℚ) / 1000000 * (Option.getD (some ((1 : ℚ) / 2)) 0) +
        (7 : ℚ) / 1000000 * (8 : ℚ) :=
  ⟨by norm_num [PRICING],
   (calculate_token_cost_formula "o3"
     { input := 2, cached_input := some (1 / 2), output := 8 }
     (by norm_num [PRICING]) 5 7 2 CostsState.init).1⟩

end PhotoClub
